import Mathlib

/-!
Verification development for the foxESS command-line client (`foxESS.py`).

The Python source is shallowly embedded: pure helper functions become Lean
functions, Python floats are modelled as rationals (`ℚ`), machine words in
the MD5 hash are `Nat` values reduced explicitly modulo `2 ^ 32`, and
Python values of type `float | str | None` become the inductive `PyVal`.
-/

namespace FoxESS

/-! ## MD5 (the `hashlib.md5(...).hexdigest()` call used by the signer)

A full executable MD5 over byte lists, 32-bit words as `Nat` reduced mod
`2 ^ 32`, digest rendered as lowercase hex. -/

/-- Left-rotate a 32-bit word (a `Nat` below `2 ^ 32`) by `s` bits. -/
def rotl32 (x s : Nat) : Nat :=
  ((x * 2 ^ s) % 2 ^ 32) ||| (x / 2 ^ (32 - s))

/-- Bitwise complement within 32 bits. -/
def not32 (x : Nat) : Nat := 0xffffffff ^^^ x

/-- The 64 MD5 round constants `K[i] = floor(2^32 * |sin(i+1)|)`. -/
def md5K : List Nat :=
  [0xd76aa478, 0xe8c7b756, 0x242070db, 0xc1bdceee,
   0xf57c0faf, 0x4787c62a, 0xa8304613, 0xfd469501,
   0x698098d8, 0x8b44f7af, 0xffff5bb1, 0x895cd7be,
   0x6b901122, 0xfd987193, 0xa679438e, 0x49b40821,
   0xf61e2562, 0xc040b340, 0x265e5a51, 0xe9b6c7aa,
   0xd62f105d, 0x02441453, 0xd8a1e681, 0xe7d3fbc8,
   0x21e1cde6, 0xc33707d6, 0xf4d50d87, 0x455a14ed,
   0xa9e3e905, 0xfcefa3f8, 0x676f02d9, 0x8d2a4c8a,
   0xfffa3942, 0x8771f681, 0x6d9d6122, 0xfde5380c,
   0xa4beea44, 0x4bdecfa9, 0xf6bb4b60, 0xbebfbc70,
   0x289b7ec6, 0xeaa127fa, 0xd4ef3085, 0x04881d05,
   0xd9d4d039, 0xe6db99e5, 0x1fa27cf8, 0xc4ac5665,
   0xf4292244, 0x432aff97, 0xab9423a7, 0xfc93a039,
   0x655b59c3, 0x8f0ccc92, 0xffeff47d, 0x85845dd1,
   0x6fa87e4f, 0xfe2ce6e0, 0xa3014314, 0x4e0811a1,
   0xf7537e82, 0xbd3af235, 0x2ad7d2bb, 0xeb86d391]

/-- The 64 MD5 per-round left-rotation amounts. -/
def md5S : List Nat :=
  [7, 12, 17, 22, 7, 12, 17, 22, 7, 12, 17, 22, 7, 12, 17, 22,
   5, 9, 14, 20, 5, 9, 14, 20, 5, 9, 14, 20, 5, 9, 14, 20,
   4, 11, 16, 23, 4, 11, 16, 23, 4, 11, 16, 23, 4, 11, 16, 23,
   6, 10, 15, 21, 6, 10, 15, 21, 6, 10, 15, 21, 6, 10, 15, 21]

/-- The MD5 nonlinear function for round quarter `r` (0..3). -/
def md5F (r b c d : Nat) : Nat :=
  if r = 0 then (b &&& c) ||| (not32 b &&& d)
  else if r = 1 then (d &&& b) ||| (not32 d &&& c)
  else if r = 2 then b ^^^ c ^^^ d
  else c ^^^ (b ||| not32 d)

/-- The MD5 message-word index for step `i` in round quarter `r`. -/
def md5G (r i : Nat) : Nat :=
  if r = 0 then i % 16
  else if r = 1 then (5 * i + 1) % 16
  else if r = 2 then (3 * i + 5) % 16
  else (7 * i) % 16

/-- One of the 64 MD5 steps over the state `(a, b, c, d)`. -/
def md5Step (M : List Nat) (st : Nat × Nat × Nat × Nat) (i : Nat) :
    Nat × Nat × Nat × Nat :=
  let (a, b, c, d) := st
  let r := i / 16
  let f := (md5F r b c d + a + md5K.getD i 0 + M.getD (md5G r i) 0) % 2 ^ 32
  (d, (b + rotl32 f (md5S.getD i 0)) % 2 ^ 32, b, c)

/-- Process one 64-byte chunk: little-endian words, 64 steps, add back. -/
def md5Chunk (st : Nat × Nat × Nat × Nat) (chunk : List Nat) :
    Nat × Nat × Nat × Nat :=
  let M := (List.range 16).map fun j =>
    chunk.getD (4 * j) 0 + 256 * chunk.getD (4 * j + 1) 0 +
      65536 * chunk.getD (4 * j + 2) 0 + 16777216 * chunk.getD (4 * j + 3) 0
  let (a, b, c, d) := (List.range 64).foldl (md5Step M) st
  ((st.1 + a) % 2 ^ 32, (st.2.1 + b) % 2 ^ 32,
   (st.2.2.1 + c) % 2 ^ 32, (st.2.2.2 + d) % 2 ^ 32)

/-- MD5 padding: `0x80`, zeros to 56 mod 64, then the bit length as
64-bit little-endian. -/
def md5Pad (msg : List Nat) : List Nat :=
  let len := msg.length
  let zeros := (56 + 64 - (len + 1) % 64) % 64
  msg ++ [0x80] ++ List.replicate zeros 0 ++
    (List.range 8).map fun j => (len * 8) % 2 ^ 64 / 2 ^ (8 * j) % 256

/-- Split a list into 64-byte chunks (fuel-structural so it reduces). -/
def chunks64Aux : Nat → List Nat → List (List Nat)
  | 0, _ => []
  | _, [] => []
  | fuel + 1, b :: rest =>
      ((b :: rest).take 64) :: chunks64Aux fuel ((b :: rest).drop 64)

/-- Split a byte list into 64-byte chunks. -/
def chunks64 (l : List Nat) : List (List Nat) := chunks64Aux l.length l

/-- A 32-bit word as four little-endian bytes. -/
def wordLE4 (w : Nat) : List Nat :=
  [w % 256, w / 256 % 256, w / 65536 % 256, w / 16777216 % 256]

/-- The 16-byte MD5 digest of a byte list. -/
def md5Bytes (msg : List Nat) : List Nat :=
  let (a, b, c, d) :=
    (chunks64 (md5Pad msg)).foldl md5Chunk
      (0x67452301, 0xefcdab89, 0x98badcfe, 0x10325476)
  wordLE4 a ++ wordLE4 b ++ wordLE4 c ++ wordLE4 d

/-- Lowercase hex digit for `n < 16`. -/
def hexDigit (n : Nat) : Char :=
  if n < 10 then Char.ofNat (48 + n) else Char.ofNat (87 + n)

/-- A byte as two lowercase hex characters. -/
def byteHex (b : Nat) : List Char := [hexDigit (b / 16 % 16), hexDigit (b % 16)]

/-- Render a byte list as a lowercase hex string (`.hexdigest()`). -/
def hexdigest (bytes : List Nat) : String := ⟨(bytes.map byteHex).flatten⟩

/-- UTF-8 bytes of one character (Python `str.encode()`). -/
def utf8EncodeChar (c : Char) : List Nat :=
  let n := c.toNat
  if n < 0x80 then [n]
  else if n < 0x800 then [0xc0 ||| (n / 64), 0x80 ||| (n % 64)]
  else if n < 0x10000 then
    [0xe0 ||| (n / 4096), 0x80 ||| (n / 64 % 64), 0x80 ||| (n % 64)]
  else
    [0xf0 ||| (n / 262144), 0x80 ||| (n / 4096 % 64),
     0x80 ||| (n / 64 % 64), 0x80 ||| (n % 64)]

/-- UTF-8 bytes of a string (Python `str.encode()`). -/
def utf8Encode (s : String) : List Nat := (s.data.map utf8EncodeChar).flatten

/-- `hashlib.md5(s.encode()).hexdigest()` for a string `s`. -/
def md5HexOfString (s : String) : String := hexdigest (md5Bytes (utf8Encode s))

/-! ## The signer (`FoxESSStatsAPI._generate_signature`, lines 52-56)

Python joins with the literal four-character text backslash-r-backslash-n
(the source spells the separator `"\\r\\n"` inside a normal string, so no
actual CR/LF bytes appear), and substitutes `""` for an absent token. -/

/-- `_generate_signature(self, path, timestamp)`, with `self.token`
passed explicitly as an `Option String`. -/
def generate_signature (token : Option String) (path timestamp : String) :
    String :=
  let signature_parts := [path, token.getD "", timestamp]
  let signature_input := String.intercalate "\\r\\n" signature_parts
  md5HexOfString signature_input

/-! ## Data model

Python values of type `float | str | None` become `PyVal`; floats are
modelled as rationals. -/

/-- A Python value as it appears in `OpenQueryData.value` and in the
return of `get_data_value`: a number, a string, or `None`. -/
inductive PyVal where
  | none : PyVal
  | num : ℚ → PyVal
  | str : String → PyVal
  deriving DecidableEq, Repr

/-- `OpenQueryData` (lines 33-40): one data point of a device query.
The Python attribute `variable` is spelled `variable_` because
`variable` is a Lean keyword. -/
structure OpenQueryData where
  variable_ : String
  value : PyVal
  name : String
  unit : String
  deriving DecidableEq, Repr

/-- `Device` (lines 19-30); the untyped, unused `battery` attribute is
omitted. -/
structure Device where
  device_sn : String
  station_name : String
  station_id : String
  module_sn : String
  device_type : String
  has_pv : Bool
  has_battery : Bool
  deriving DecidableEq, Repr

/-- Python `str.lower()` on one character, for the ASCII range the
program's variable names live in. -/
def pyLowerChar (c : Char) : Char :=
  if 'A' ≤ c ∧ c ≤ 'Z' then Char.ofNat (c.toNat + 32) else c

/-- Python `str.lower()` (ASCII range). -/
def pyLower (s : String) : String := ⟨s.data.map pyLowerChar⟩

/-! ## Query helpers (lines 175-201) -/

/-- `get_data_value(data_list, key)` (lines 175-182): first item whose
variable name matches case-insensitively; numeric values pass through
(Python coerces `int` to `float`, the identity on `ℚ`); Python returns
`None` both for no match and for a matched `None` value, which is
`PyVal.none` in both cases here. -/
def get_data_value (data_list : List OpenQueryData) (key : String) : PyVal :=
  match data_list with
  | [] => .none
  | item :: rest =>
      if pyLower item.variable_ = pyLower key then item.value
      else get_data_value rest key

/-- Replace every occurrence of the two-character sequence `°C` with
`C` (the `unit.replace` call on line 191). -/
def replaceDegCAux : List Char → List Char
  | [] => []
  | '°' :: 'C' :: rest => 'C' :: replaceDegCAux rest
  | c :: rest => c :: replaceDegCAux rest

/-- Python `unit.replace("°C", "C")`. -/
def replaceDegC (s : String) : String := ⟨replaceDegCAux s.data⟩

/-- `get_data_unit(data_list, key)` (lines 185-193): case-insensitive
first match; the matched unit with `°C` normalized to `C`; `""` when no
match. -/
def get_data_unit (data_list : List OpenQueryData) (key : String) : String :=
  match data_list with
  | [] => ""
  | item :: rest =>
      if pyLower item.variable_ = pyLower key then replaceDegC item.unit
      else get_data_unit rest key

/-- `get_data_name(data_list, key)` (lines 196-201): case-insensitive
first match on the variable name, returning the matched item's display
name; the key itself when no match. -/
def get_data_name (data_list : List OpenQueryData) (key : String) : String :=
  match data_list with
  | [] => key
  | item :: rest =>
      if pyLower item.variable_ = pyLower key then item.name
      else get_data_name rest key

/-! ## Formatter (lines 204-221 and the inline trimming in `main`) -/

/-- Decimal digit character for `n < 10`. -/
def digitChar10 (n : Nat) : Char := Char.ofNat (48 + n)

/-- Decimal digit characters of `n`, most significant first (with fuel
so the recursion is structural). -/
def natToDigits : Nat → Nat → List Char
  | 0, _ => []
  | fuel + 1, n =>
      if n < 10 then [digitChar10 n]
      else natToDigits fuel (n / 10) ++ [digitChar10 (n % 10)]

/-- Decimal rendering of a natural number. -/
def natRepr (n : Nat) : String := ⟨natToDigits (n + 1) n⟩

/-- Round a rational to the nearest integer, ties to even (the rounding
of Python fixed-point formatting). -/
def roundHalfEven (x : ℚ) : ℤ :=
  let f := ⌊x⌋
  let r := x - f
  if r > 1 / 2 then f + 1
  else if r < 1 / 2 then f
  else if f % 2 = 0 then f else f + 1

/-- Left-pad a digit string with zeros to the given width. -/
def natPad (width : Nat) (s : String) : String :=
  ⟨List.replicate (width - s.length) '0'⟩ ++ s

/-- Python `f"{value:.{dp}f}"`: fixed-point rendering with `dp` decimal
digits. -/
def formatFixed (x : ℚ) (dp : Nat) : String :=
  let m := roundHalfEven (x * 10 ^ dp)
  let sign := if x < 0 then "-" else ""
  let digitsStr := natRepr m.natAbs
  if dp = 0 then sign ++ digitsStr
  else
    let packed := natPad (dp + 1) digitsStr
    let intLen := packed.length - dp
    sign ++ ⟨packed.data.take intLen⟩ ++ "." ++ ⟨packed.data.drop intLen⟩

/-- Python `s.rstrip(c)` for a single-character strip set: remove every
trailing occurrence of `c`. -/
def rstripChar (s : String) (c : Char) : String :=
  ⟨(s.data.reverse.dropWhile (fun x => x = c)).reverse⟩

/-- The inline trimming chain `.rstrip('0').rstrip('.')` applied after
fixed-point rendering (lines 211, 220, 317, 331). -/
def stripTrailing (s : String) : String := rstripChar (rstripChar s '0') '.'

/-- `format_power_value(value, decimal_places)` (lines 218-221). -/
def format_power_value (value : ℚ) (decimal_places : Nat) : String :=
  stripTrailing (formatFixed value decimal_places) ++ " kW"

/-- The solar zero threshold of the default summary (lines 292-296):
readings of `0.02` or less become exactly `0`. -/
def zero_floor (x : ℚ) : ℚ := if x ≤ 0.02 then 0 else x

/-! ## The three output paths of `main` (lines 278-334) and
`dump_all_variables` (lines 204-215) -/

/-- The value column of one `dump_all_variables` line (lines 208-213),
zero threshold applied to the two solar variable names. -/
def dump_value_str (item : OpenQueryData) (decimal_places : Nat) : String :=
  match item.value with
  | .num v =>
      let adjusted_value : ℚ :=
        if (item.variable_ = "generationPower" ∨ item.variable_ = "pvPower")
            ∧ v ≤ 0.02 then 0 else v
      stripTrailing (formatFixed adjusted_value decimal_places)
  | .str s => s
  | .none => "unknown"

/-- One printed line of `dump_all_variables` (line 215). -/
def dump_line (item : OpenQueryData) (decimal_places : Nat) : String :=
  "  " ++ item.variable_ ++ ": " ++ dump_value_str item decimal_places
    ++ " " ++ item.unit

/-- `dump_all_variables(data_list, decimal_places)` (lines 204-215) as
the list of printed lines. -/
def dump_all_variables (data_list : List OpenQueryData)
    (decimal_places : Nat) : List String :=
  "Available variables:" :: data_list.map (dump_line · decimal_places)

/-- One printed line of the explicit-variable path (lines 325-334):
numeric values get the solar zero threshold, trimming and unit; any
other value prints `Not available`. -/
def explicit_line (data : List OpenQueryData) (variable_ : String)
    (decimals : Nat) : String :=
  match get_data_value data variable_ with
  | .num value =>
      let adjusted_value : ℚ :=
        if (variable_ = "generationPower" ∨ variable_ = "pvPower")
            ∧ value ≤ 0.02 then 0 else value
      variable_ ++ ": " ++ stripTrailing (formatFixed adjusted_value decimals)
        ++ " " ++ get_data_unit data variable_
  | _ => variable_ ++ ": Not available"

/-- Python truthiness of a `PyVal` (`None`, `0.0` and `""` are falsy). -/
def pyTruthy : PyVal → Bool
  | .none => false
  | .num q => decide (q ≠ 0)
  | .str s => decide (s ≠ "")

/-- Python `x or 0`, the substitution applied to every summary lookup
(lines 280-290). -/
def pyOrZero (v : PyVal) : PyVal := if pyTruthy v then v else .num 0

/-- View a `PyVal` as a number; `Option.none` models the `TypeError` a
string operand would raise in arithmetic or formatting. -/
def asNum : PyVal → Option ℚ
  | .num q => some q
  | _ => Option.none

/-- The default summary (lines 278-318) as its list of printed lines;
`Option.none` models the run-time error a non-numeric value would
raise. The battery block appears only when `device.has_battery`. -/
def default_summary (device : Device) (data : List OpenQueryData)
    (decimals : Nat) : Option (List String) :=
  match asNum (pyOrZero (get_data_value data "generationPower")),
        asNum (pyOrZero (get_data_value data "pvPower")),
        asNum (pyOrZero (get_data_value data "gridConsumptionPower")),
        asNum (pyOrZero (get_data_value data "feedinPower")),
        asNum (pyOrZero (get_data_value data "loadsPower")),
        asNum (pyOrZero (get_data_value data "batChargePower")),
        asNum (pyOrZero (get_data_value data "batDischargePower")),
        asNum (pyOrZero (get_data_value data "SoC")) with
  | some solar0, some pv0, some grid_consumption, some feed_in, some home,
      some battery_charge, some battery_discharge, some battery_soc =>
    let grid_flow := grid_consumption - feed_in
    let battery_flow := battery_charge - battery_discharge
    let solar := if solar0 ≤ 0.02 then 0 else solar0
    let pv_power := if pv0 ≤ 0.02 then 0 else pv0
    some (["Device: " ++ device.station_name,
      "generationPower: " ++ format_power_value solar decimals,
      "pvPower: " ++ format_power_value pv_power decimals,
      "loadsPower: " ++ format_power_value home decimals,
      "Grid: " ++ format_power_value (abs grid_flow) decimals ++ " "
        ++ (if grid_flow > 0 then "import" else "export")] ++
      (if device.has_battery then
        ["Battery: " ++ format_power_value (abs battery_flow) decimals ++ " "
           ++ (if battery_flow > 0 then "charging" else "discharging"),
         "SoC: " ++ stripTrailing (formatFixed battery_soc decimals) ++ "%"]
       else []))
  | _, _, _, _, _, _, _, _ => Option.none

/-- The three output modes of `main`. -/
inductive OutputMode where
  | summary : OutputMode
  | showAll : OutputMode
  | explicitVars : OutputMode
  deriving DecidableEq, Repr

/-- The branch structure of lines 278, 320 and 323:
`if not variables and not args.all: ... elif args.all: ... else: ...`. -/
def select_mode (vars : List String) (all : Bool) : OutputMode :=
  if vars = [] ∧ all = false then .summary
  else if all then .showAll
  else .explicitVars

/-- Modelled from the spec: the mode selection as the claim words it,
explicit variable flags taking precedence over the show-all flag, which
takes precedence over the default summary. -/
def claimed_mode (vars : List String) (all : Bool) : OutputMode :=
  if vars ≠ [] then .explicitVars
  else if all then .showAll
  else .summary

/-! ## The response envelope (`_fetch`, lines 100-105) -/

/-- The server's JSON envelope: an integer `errno` and a `result`
payload (the claims quantify over envelopes that carry `errno`, so it
is a plain field here; Python defaults a missing `errno` to `0`). -/
structure Envelope (α : Type) where
  errno : Int
  result : α

/-- The envelope unwrapping of `_fetch` (lines 102-105):
`if response_data.get('errno', 0) > 0: raise ...; return result`. -/
def fetch_unwrap {α : Type} (resp : Envelope α) : Except String α :=
  if resp.errno > 0 then .error ("Server error " ++ toString resp.errno)
  else .ok resp.result

/-! ## Supporting lemmas

Batteries marks the rational arithmetic operations `@[irreducible]`;
concrete evaluations in witnesses need them unfolded. -/

attribute [local semireducible] Rat.sub Rat.add Rat.mul Rat.inv Rat.ofScientific

/-- `String.intercalate` on a three-element list is the two-separator
concatenation. -/
theorem intercalate_three (s a b c : String) :
    String.intercalate s [a, b, c] = a ++ s ++ b ++ s ++ c := rfl

/-- Standard MD5 test vector: the empty message. -/
theorem md5HexOfString_empty :
    md5HexOfString "" = "d41d8cd98f00b204e9800998ecf8427e" := by rfl

/-- Standard MD5 test vector: `"abc"`. -/
theorem md5HexOfString_abc :
    md5HexOfString "abc" = "900150983cd24fb0d6963f7d28e17f72" := by rfl

/-- A concrete signature: the digest of
`/op/v0/device/list\r\n\r\n1700000000000` (with the separators as
literal backslash-r-backslash-n text). -/
theorem generate_signature_example :
    generate_signature Option.none "/op/v0/device/list" "1700000000000"
      = "7d0523dc26ebad17e8eb6c8c6573fed5" := by rfl

/-! ## C1 -/

/-- C1: for every path, token and timestamp, `_generate_signature`
returns the lowercase hexadecimal MD5 digest of the UTF-8 bytes of
path, token and timestamp joined (three fields, two separators) by the
literal carriage-return/line-feed escape-sequence text, with `""` in
place of an absent token; the function is total (pure, no failure
modes). -/
theorem generate_signature_is_md5_of_join (path timestamp : String)
    (token : Option String) :
    generate_signature token path timestamp =
      hexdigest (md5Bytes (utf8Encode
        (path ++ "\\r\\n" ++ token.getD "" ++ "\\r\\n" ++ timestamp))) := rfl

/-! ## C3 -/

/-- C3 counterexample: with an explicit variable flag and the show-all
flag both supplied, the code renders show-all, not the explicit
variables the claim's precedence demands. -/
theorem select_mode_counterexample :
    select_mode ["SoC"] true = OutputMode.showAll
    ∧ claimed_mode ["SoC"] true = OutputMode.explicitVars
    ∧ select_mode ["SoC"] true ≠ claimed_mode ["SoC"] true := by decide

/-- C3 (amended): the program renders in exactly one of three mutually
exclusive modes, with the show-all flag taking precedence over explicit
variable flags, which take precedence over the default summary. -/
theorem select_mode_precedence (vars : List String) (all : Bool) :
    (select_mode vars all = OutputMode.showAll ↔ all = true)
    ∧ (select_mode vars all = OutputMode.explicitVars
        ↔ (all = false ∧ vars ≠ []))
    ∧ (select_mode vars all = OutputMode.summary
        ↔ (all = false ∧ vars = [])) := by
  unfold select_mode
  cases all <;> by_cases h : vars = [] <;> simp [h]

/-! ## C4 -/

/-- C4 counterexample: a 2xx envelope with the nonzero error code `-1`
is not surfaced as a server error; the code only tests `errno > 0`, so
the payload is returned. -/
theorem fetch_unwrap_counterexample :
    fetch_unwrap ({ errno := -1, result := 42 } : Envelope Nat)
      = Except.ok 42 := rfl

/-- C4 (amended): the envelope unwrapping surfaces a server error
containing the error code whenever the code is strictly positive, and
returns the envelope's `result` payload whenever the code is zero or
negative. -/
theorem fetch_unwrap_spec {α : Type} (resp : Envelope α) :
    (resp.errno > 0 →
      fetch_unwrap resp
        = Except.error ("Server error " ++ toString resp.errno))
    ∧ (resp.errno ≤ 0 → fetch_unwrap resp = Except.ok resp.result) := by
  unfold fetch_unwrap
  constructor
  · intro h
    simp [h]
  · intro h
    simp [Int.not_lt.mpr h]

/-- C4 witness: error code 7 is surfaced, error code 0 yields the
payload. -/
theorem fetch_unwrap_spec_witness :
    fetch_unwrap ({ errno := 7, result := 1 } : Envelope Nat)
        = Except.error "Server error 7"
    ∧ fetch_unwrap ({ errno := 0, result := 1 } : Envelope Nat)
        = Except.ok 1 :=
  ⟨(fetch_unwrap_spec { errno := 7, result := 1 }).1 (by decide),
   (fetch_unwrap_spec { errno := 0, result := 1 }).2 (by decide)⟩

/-! ## Lookup characterizations (C7, C8) -/

/-- `get_data_value` is the first case-insensitive match's value. -/
theorem get_data_value_eq_find (data : List OpenQueryData) (k : String) :
    get_data_value data k
      = ((data.find? fun item => pyLower item.variable_ == pyLower k).map
          (fun item => item.value)).getD PyVal.none := by
  induction data with
  | nil => rfl
  | cons item rest ih =>
      simp only [get_data_value]
      by_cases h : pyLower item.variable_ = pyLower k
      · rw [if_pos h, List.find?_cons_of_pos _ (by simpa using h)]
        rfl
      · rw [if_neg h, List.find?_cons_of_neg _ (by simpa using h), ih]

/-- `get_data_unit` is the first case-insensitive match's normalized
unit. -/
theorem get_data_unit_eq_find (data : List OpenQueryData) (k : String) :
    get_data_unit data k
      = ((data.find? fun item => pyLower item.variable_ == pyLower k).map
          (fun item => replaceDegC item.unit)).getD "" := by
  induction data with
  | nil => rfl
  | cons item rest ih =>
      simp only [get_data_unit]
      by_cases h : pyLower item.variable_ = pyLower k
      · rw [if_pos h, List.find?_cons_of_pos _ (by simpa using h)]
        rfl
      · rw [if_neg h, List.find?_cons_of_neg _ (by simpa using h), ih]

/-- `get_data_name` is the first case-insensitive match's display name,
the key itself when there is none. -/
theorem get_data_name_eq_find (data : List OpenQueryData) (k : String) :
    get_data_name data k
      = ((data.find? fun item => pyLower item.variable_ == pyLower k).map
          (fun item => item.name)).getD k := by
  induction data with
  | nil => rfl
  | cons item rest ih =>
      simp only [get_data_name]
      by_cases h : pyLower item.variable_ = pyLower k
      · rw [if_pos h, List.find?_cons_of_pos _ (by simpa using h)]
        rfl
      · rw [if_neg h, List.find?_cons_of_neg _ (by simpa using h), ih]

/-! ## C7 -/

/-- C7 counterexample: `get_data_name` is not invariant under changing
the letter case of the query when no match exists — it echoes the query
verbatim, so `charge` and `CHARGE` give different results against a
list whose only point is named `SoC`. -/
theorem lookup_case_counterexample :
    get_data_name [⟨"SoC", PyVal.num (171 / 2), "State of Charge", "%"⟩]
        "charge"
      ≠ get_data_name [⟨"SoC", PyVal.num (171 / 2), "State of Charge", "%"⟩]
        "CHARGE" := by decide

/-- C7 (amended): `get_data_value` and `get_data_unit` are invariant
under changing the letter case of the query; `get_data_name` is
invariant whenever a match exists (on a miss it echoes the query
verbatim); and a matching head point wins regardless of the tail, so
the first match in list order is the one returned. -/
theorem lookup_case_insensitive (data : List OpenQueryData) (k1 k2 : String)
    (h : pyLower k1 = pyLower k2) :
    get_data_value data k1 = get_data_value data k2
    ∧ get_data_unit data k1 = get_data_unit data k2
    ∧ ((∃ item ∈ data, pyLower item.variable_ = pyLower k1) →
        get_data_name data k1 = get_data_name data k2)
    ∧ (∀ (item : OpenQueryData) (rest : List OpenQueryData),
        pyLower item.variable_ = pyLower k1 →
          get_data_value (item :: rest) k1 = item.value
          ∧ get_data_unit (item :: rest) k1 = replaceDegC item.unit
          ∧ get_data_name (item :: rest) k1 = item.name) := by
  refine ⟨?_, ?_, ?_, ?_⟩
  · rw [get_data_value_eq_find, get_data_value_eq_find, h]
  · rw [get_data_unit_eq_find, get_data_unit_eq_find, h]
  · intro hex
    rw [get_data_name_eq_find, get_data_name_eq_find, h]
    obtain ⟨item, hmem, hp⟩ := hex
    rw [h] at hp
    have hsome : (data.find? fun it =>
        pyLower it.variable_ == pyLower k2).isSome := by
      rw [List.find?_isSome]
      exact ⟨item, hmem, by simpa using hp⟩
    obtain ⟨it, hfind⟩ := Option.isSome_iff_exists.mp hsome
    rw [hfind]
    rfl
  · intro item rest hmatch
    exact ⟨by simp [get_data_value, hmatch],
      by simp [get_data_unit, hmatch],
      by simp [get_data_name, hmatch]⟩

/-- C7 witness: `soc` and `SOC` find the point named `SoC`
identically. -/
theorem lookup_case_insensitive_witness :
    get_data_value [⟨"SoC", PyVal.num (171 / 2), "State of Charge", "%"⟩]
        "soc"
      = get_data_value [⟨"SoC", PyVal.num (171 / 2), "State of Charge", "%"⟩]
        "SOC" :=
  (lookup_case_insensitive
    [⟨"SoC", PyVal.num (171 / 2), "State of Charge", "%"⟩]
    "soc" "SOC" (by decide)).1

/-! ## C8 -/

/-- C8 counterexample: against a point with variable name `SoC` whose
display name is empty (the constructor's default), the query `soc`
matches on the variable name and returns the empty display name — not
the echo `"soc"` the claim predicts from a display-name miss, and an
empty result besides. -/
theorem get_data_name_counterexample :
    get_data_name [⟨"SoC", PyVal.num 85, "", "%"⟩] "soc" = "" := by decide

/-- C8 (amended): `get_data_name` matches case-insensitively on the
point's variable name, returns the matched point's display name on
success, and falls back to echoing the requested variable name
verbatim when no match exists; its result is empty only when the
matched display name or the echoed query is itself empty. -/
theorem get_data_name_spec (data : List OpenQueryData) (k : String) :
    (get_data_name data k
      = ((data.find? fun item => pyLower item.variable_ == pyLower k).map
          (fun item => item.name)).getD k)
    ∧ (get_data_name data k = "" →
        (∃ item ∈ data, pyLower item.variable_ = pyLower k ∧ item.name = "")
        ∨ k = "") := by
  refine ⟨get_data_name_eq_find data k, ?_⟩
  intro hempty
  rw [get_data_name_eq_find data k] at hempty
  cases hfind : data.find? fun item => pyLower item.variable_ == pyLower k with
  | none =>
      rw [hfind] at hempty
      exact Or.inr hempty
  | some item =>
      rw [hfind] at hempty
      refine Or.inl ⟨item, List.mem_of_find?_eq_some hfind, ?_, hempty⟩
      simpa using List.find?_some hfind

/-- C8 witness: an empty result arises from a matched empty display
name. -/
theorem get_data_name_spec_witness :
    (∃ item ∈ [(⟨"SoC", PyVal.num 85, "", "%"⟩ : OpenQueryData)],
        pyLower item.variable_ = pyLower "soc" ∧ item.name = "")
    ∨ "soc" = "" :=
  (get_data_name_spec [⟨"SoC", PyVal.num 85, "", "%"⟩] "soc").2 (by decide)

/-! ## Lemmas about the summary lookups and the fixed-point renderer -/

/-- `x or 0` on an absent value yields the number `0`. -/
theorem asNum_pyOrZero_none : asNum (pyOrZero PyVal.none) = some 0 := rfl

/-- `x or 0` on a numeric value is numerically the identity (Python
replaces a falsy `0.0` by the integer `0`, the same number). -/
theorem asNum_pyOrZero_num (x : ℚ) :
    asNum (pyOrZero (PyVal.num x)) = some x := by
  by_cases h : x = 0
  · subst h; rfl
  · simp [pyOrZero, pyTruthy, h, asNum]

/-- Inversion: a successful default summary determines the eight
looked-up numbers and the exact printed lines. -/
theorem default_summary_some_inv (dev : Device) (data : List OpenQueryData)
    (dp : Nat) (lines : List String)
    (h : default_summary dev data dp = some lines) :
    ∃ solar0 pv0 gc fi home bc bd soc : ℚ,
      asNum (pyOrZero (get_data_value data "generationPower")) = some solar0
      ∧ asNum (pyOrZero (get_data_value data "pvPower")) = some pv0
      ∧ asNum (pyOrZero (get_data_value data "gridConsumptionPower")) = some gc
      ∧ asNum (pyOrZero (get_data_value data "feedinPower")) = some fi
      ∧ asNum (pyOrZero (get_data_value data "loadsPower")) = some home
      ∧ asNum (pyOrZero (get_data_value data "batChargePower")) = some bc
      ∧ asNum (pyOrZero (get_data_value data "batDischargePower")) = some bd
      ∧ asNum (pyOrZero (get_data_value data "SoC")) = some soc
      ∧ lines =
          ["Device: " ++ dev.station_name,
           "generationPower: " ++ format_power_value (zero_floor solar0) dp,
           "pvPower: " ++ format_power_value (zero_floor pv0) dp,
           "loadsPower: " ++ format_power_value home dp,
           "Grid: " ++ format_power_value (abs (gc - fi)) dp ++ " "
             ++ (if gc - fi > 0 then "import" else "export")]
          ++ (if dev.has_battery then
               ["Battery: " ++ format_power_value (abs (bc - bd)) dp ++ " "
                  ++ (if bc - bd > 0 then "charging" else "discharging"),
                "SoC: " ++ stripTrailing (formatFixed soc dp) ++ "%"]
              else []) := by
  unfold default_summary at h
  split at h
  next solar0 pv0 gc fi home bc bd soc e1 e2 e3 e4 e5 e6 e7 e8 =>
    exact ⟨solar0, pv0, gc, fi, home, bc, bd, soc, e1, e2, e3, e4, e5, e6,
      e7, e8, (Option.some.inj h).symm⟩
  next => exact absurd h (by simp)

/-- A decimal digit character is not a dot. -/
theorem digitChar10_ne_dot (n : Nat) (h : n < 10) : digitChar10 n ≠ '.' := by
  interval_cases n <;> decide

/-- No character produced by `natToDigits` is a dot. -/
theorem natToDigits_ne_dot (fuel n : Nat) :
    ∀ c ∈ natToDigits fuel n, c ≠ '.' := by
  induction fuel generalizing n with
  | zero => simp [natToDigits]
  | succ fuel ih =>
      intro c hc
      unfold natToDigits at hc
      by_cases h : n < 10
      · rw [if_pos h] at hc
        simp only [List.mem_singleton] at hc
        exact hc ▸ digitChar10_ne_dot n h
      · rw [if_neg h] at hc
        rcases List.mem_append.mp hc with h1 | h1
        · exact ih (n / 10) c h1
        · simp only [List.mem_singleton] at h1
          exact h1 ▸ digitChar10_ne_dot _ (Nat.mod_lt _ (by norm_num))

/-- No character of a rendered natural number is a dot. -/
theorem natRepr_no_dot (n : Nat) : '.' ∉ (natRepr n).data := by
  intro hc
  exact natToDigits_ne_dot (n + 1) n '.' hc rfl

/-- Characters surviving `rstripChar` were characters of the input. -/
theorem mem_rstripChar (s : String) (c : Char) :
    ∀ x ∈ (rstripChar s c).data, x ∈ s.data := by
  intro x hx
  change x ∈ ((s.data.reverse.dropWhile (fun y => y = c)).reverse) at hx
  rw [List.mem_reverse] at hx
  have hsub : List.Sublist (s.data.reverse.dropWhile (fun y => decide (y = c)))
      s.data.reverse := List.dropWhile_sublist _
  have hx2 : x ∈ s.data.reverse := hsub.subset hx
  rwa [List.mem_reverse] at hx2

/-- Stripping a character that never occurs is the identity. -/
theorem rstripChar_of_not_mem (s : String) (c : Char) (h : c ∉ s.data) :
    rstripChar s c = s := by
  unfold rstripChar
  have hd : s.data.reverse.dropWhile (fun y => y = c) = s.data.reverse := by
    cases hr : s.data.reverse with
    | nil => rfl
    | cons a t =>
        rw [List.dropWhile_cons]
        have ha : a ∈ s.data := by
          rw [← List.mem_reverse, hr]
          exact List.mem_cons_self a t
        have hne : ¬(a = c) := fun e => h (e ▸ ha)
        simp [hne]
  rw [hd, List.reverse_reverse]

/-- Fixed-point rendering at zero decimal places contains no dot. -/
theorem formatFixed_zero_no_dot (x : ℚ) : '.' ∉ (formatFixed x 0).data := by
  intro hc
  simp only [formatFixed, pow_zero, mul_one, reduceIte] at hc
  rw [String.data_append] at hc
  rcases List.mem_append.mp hc with h1 | h1
  · by_cases hx : x < 0
    · rw [if_pos hx] at h1
      simp at h1
    · rw [if_neg hx] at h1
      simp at h1
  · exact natRepr_no_dot _ h1

/-! ## C2 -/

/-- C2: for the two solar variable names `generationPower` and
`pvPower`, a numeric reading of at most `0.02` is displayed as exactly
`0` and a larger reading is displayed unfloored, and the same rule
(`zero_floor`) is applied in the show-all path (`dump_value_str`), the
explicit-variable path (`explicit_line`) and the default summary. -/
theorem zero_floor_all_paths (v : String) (x : ℚ) (dp : Nat)
    (data : List OpenQueryData) (dev : Device) (nm ut : String)
    (hv : v = "generationPower" ∨ v = "pvPower") :
    (dump_value_str ⟨v, PyVal.num x, nm, ut⟩ dp
        = stripTrailing (formatFixed (zero_floor x) dp))
    ∧ (get_data_value data v = PyVal.num x →
        explicit_line data v dp
          = v ++ ": " ++ stripTrailing (formatFixed (zero_floor x) dp)
              ++ " " ++ get_data_unit data v)
    ∧ (∀ lines, get_data_value data "generationPower" = PyVal.num x →
        default_summary dev data dp = some lines →
        lines.get? 1 = some ("generationPower: "
          ++ format_power_value (zero_floor x) dp))
    ∧ (∀ lines, get_data_value data "pvPower" = PyVal.num x →
        default_summary dev data dp = some lines →
        lines.get? 2 = some ("pvPower: " ++ format_power_value (zero_floor x) dp))
    ∧ (x ≤ 0.02 → zero_floor x = 0)
    ∧ (0.02 < x → zero_floor x = x) := by
  refine ⟨?_, ?_, ?_, ?_, ?_, ?_⟩
  · rcases hv with hv | hv <;> subst hv <;>
      simp [dump_value_str, zero_floor]
  · intro hval
    rcases hv with hv | hv <;> subst hv <;>
      simp [explicit_line, hval, zero_floor]
  · intro lines hval hsum
    obtain ⟨s0, p0, gc, fi, home, bc, bd, soc, e1, e2, e3, e4, e5, e6, e7,
      e8, hl⟩ := default_summary_some_inv dev data dp lines hsum
    rw [hval, asNum_pyOrZero_num] at e1
    obtain rfl := Option.some.inj e1
    rw [hl]
    rfl
  · intro lines hval hsum
    obtain ⟨s0, p0, gc, fi, home, bc, bd, soc, e1, e2, e3, e4, e5, e6, e7,
      e8, hl⟩ := default_summary_some_inv dev data dp lines hsum
    rw [hval, asNum_pyOrZero_num] at e2
    obtain rfl := Option.some.inj e2
    rw [hl]
    rfl
  · intro hx
    simp [zero_floor, hx]
  · intro hx
    simp [zero_floor, not_le.mpr hx]

/-- C2 witness: a `generationPower` reading of `0.021` in the show-all
path is displayed unfloored. -/
theorem zero_floor_all_paths_witness :
    dump_value_str ⟨"generationPower", PyVal.num (21 / 1000), "", "kW"⟩ 2
      = stripTrailing (formatFixed (zero_floor (21 / 1000)) 2) :=
  (zero_floor_all_paths "generationPower" (21 / 1000) 2 []
    ⟨"", "", "", "", "", false, false⟩ "" "kW" (Or.inl rfl)).1

/-! ## C5 -/

/-- C5: numeric formatting renders the value at the requested number of
decimal digits, strips trailing zeros, then strips a now-trailing
decimal point; `1.50` at 2 decimals gives `1.5`, `2.00` gives `2`,
`1.234` at 2 decimals gives `1.23`; and the same trimming chain is what
the power formatter, the show-all dump and the SoC percentage line
apply. -/
theorem numeric_trimming (x : ℚ) (dp : Nat) :
    (format_power_value x dp
        = rstripChar (rstripChar (formatFixed x dp) '0') '.' ++ " kW")
    ∧ stripTrailing (formatFixed (3 / 2) 2) = "1.5"
    ∧ stripTrailing (formatFixed 2 2) = "2"
    ∧ stripTrailing (formatFixed (1234 / 1000) 2) = "1.23"
    ∧ (∀ item : OpenQueryData, item.value = PyVal.num x →
        dump_value_str item dp
          = rstripChar (rstripChar (formatFixed
              (if (item.variable_ = "generationPower"
                    ∨ item.variable_ = "pvPower") ∧ x ≤ 0.02
                then 0 else x) dp) '0') '.')
    ∧ (∀ (dev : Device) (data : List OpenQueryData) (lines : List String)
          (soc : ℚ), dev.has_battery = true →
        get_data_value data "SoC" = PyVal.num soc →
        default_summary dev data dp = some lines →
        lines.get? 6 = some ("SoC: "
          ++ rstripChar (rstripChar (formatFixed soc dp) '0') '.' ++ "%")) := by
  refine ⟨rfl, by decide, by decide, by decide, ?_, ?_⟩
  · intro item hv
    simp [dump_value_str, hv, stripTrailing]
  · intro dev data lines soc hbat hval hsum
    obtain ⟨s0, p0, gc, fi, home, bc, bd, soc', e1, e2, e3, e4, e5, e6, e7,
      e8, hl⟩ := default_summary_some_inv dev data dp lines hsum
    rw [hval, asNum_pyOrZero_num] at e8
    obtain rfl := Option.some.inj e8
    rw [hl]
    simp [hbat, stripTrailing]

/-- C5 witness: `1.50` in the show-all dump is displayed as `1.5`. -/
theorem numeric_trimming_witness :
    dump_value_str ⟨"loadsPower", PyVal.num (3 / 2), "", "kW"⟩ 2 = "1.5" :=
  ((numeric_trimming (3 / 2) 2).2.2.2.2.1
    ⟨"loadsPower", PyVal.num (3 / 2), "", "kW"⟩ rfl).trans (by decide)

/-! ## C6 -/

/-- C6: in the default summary the grid line shows the absolute value
of grid-consumption minus feed-in, labeled `import` when the difference
is strictly positive and `export` otherwise, and the battery line shows
the absolute value of charge minus discharge, labeled `charging` when
strictly positive and `discharging` otherwise. -/
theorem directional_labels (dev : Device) (data : List OpenQueryData)
    (dp : Nat) (lines : List String) (gc fi bc bd : ℚ)
    (hgc : get_data_value data "gridConsumptionPower" = PyVal.num gc)
    (hfi : get_data_value data "feedinPower" = PyVal.num fi)
    (hbc : get_data_value data "batChargePower" = PyVal.num bc)
    (hbd : get_data_value data "batDischargePower" = PyVal.num bd)
    (h : default_summary dev data dp = some lines) :
    lines.get? 4 = some ("Grid: " ++ format_power_value (abs (gc - fi)) dp
      ++ " " ++ (if gc - fi > 0 then "import" else "export"))
    ∧ (dev.has_battery = true →
        lines.get? 5 = some ("Battery: "
          ++ format_power_value (abs (bc - bd)) dp ++ " "
          ++ (if bc - bd > 0 then "charging" else "discharging"))) := by
  obtain ⟨s0, p0, gc', fi', home, bc', bd', soc, e1, e2, e3, e4, e5, e6, e7,
    e8, hl⟩ := default_summary_some_inv dev data dp lines h
  rw [hgc, asNum_pyOrZero_num] at e3
  rw [hfi, asNum_pyOrZero_num] at e4
  rw [hbc, asNum_pyOrZero_num] at e6
  rw [hbd, asNum_pyOrZero_num] at e7
  obtain rfl := Option.some.inj e3
  obtain rfl := Option.some.inj e4
  obtain rfl := Option.some.inj e6
  obtain rfl := Option.some.inj e7
  constructor
  · rw [hl]
    rfl
  · intro hbat
    rw [hl]
    simp [hbat]

/-- C6 witness: grid-consumption 100 and feed-in 30 yield the line
`Grid: 70 kW import`; battery charge 5 and discharge 1 yield
`Battery: 4 kW charging`. -/
theorem directional_labels_witness :
    (["Device: Home", "generationPower: 0 kW", "pvPower: 0 kW",
      "loadsPower: 0 kW", "Grid: 70 kW import", "Battery: 4 kW charging",
      "SoC: 0%"] : List String).get? 4 = some "Grid: 70 kW import"
    ∧ (["Device: Home", "generationPower: 0 kW", "pvPower: 0 kW",
      "loadsPower: 0 kW", "Grid: 70 kW import", "Battery: 4 kW charging",
      "SoC: 0%"] : List String).get? 5 = some "Battery: 4 kW charging" :=
  ⟨((directional_labels ⟨"sn", "Home", "", "", "", false, true⟩
      [⟨"gridConsumptionPower", PyVal.num 100, "", "kW"⟩,
       ⟨"feedinPower", PyVal.num 30, "", "kW"⟩,
       ⟨"batChargePower", PyVal.num 5, "", "kW"⟩,
       ⟨"batDischargePower", PyVal.num 1, "", "kW"⟩] 2
      ["Device: Home", "generationPower: 0 kW", "pvPower: 0 kW",
       "loadsPower: 0 kW", "Grid: 70 kW import", "Battery: 4 kW charging",
       "SoC: 0%"] 100 30 5 1 rfl rfl rfl rfl rfl).1).trans (by decide),
   (((directional_labels ⟨"sn", "Home", "", "", "", false, true⟩
      [⟨"gridConsumptionPower", PyVal.num 100, "", "kW"⟩,
       ⟨"feedinPower", PyVal.num 30, "", "kW"⟩,
       ⟨"batChargePower", PyVal.num 5, "", "kW"⟩,
       ⟨"batDischargePower", PyVal.num 1, "", "kW"⟩] 2
      ["Device: Home", "generationPower: 0 kW", "pvPower: 0 kW",
       "loadsPower: 0 kW", "Grid: 70 kW import", "Battery: 4 kW charging",
       "SoC: 0%"] 100 30 5 1 rfl rfl rfl rfl rfl).2) rfl).trans (by decide)⟩

/-! ## C9 -/

/-- C9: at zero decimal places the rendered number contains no decimal
point, so the trimming chain reduces to stripping trailing zero digits
of the integer part; in particular `100` at 0 decimals is displayed as
`1 kW`. -/
theorem format_power_zero_decimals (x : ℚ) :
    format_power_value x 0 = rstripChar (formatFixed x 0) '0' ++ " kW"
    ∧ format_power_value 100 0 = "1 kW" := by
  constructor
  · have h : '.' ∉ (rstripChar (formatFixed x 0) '0').data := fun hc =>
      formatFixed_zero_no_dot x (mem_rstripChar _ _ '.' hc)
    show stripTrailing (formatFixed x 0) ++ " kW" = _
    unfold stripTrailing
    rw [rstripChar_of_not_mem _ _ h]
  · decide

/-! ## C10 -/

/-- C10: in the default summary, each of the eight looked-up variables
is substituted with the number `0` when absent from the data list, and
a reading of exactly `0` is likewise replaced by `0` with the same
displayed result; with both grid variables absent the grid line at the
default two decimals is `Grid: 0 kW export`. -/
theorem missing_variables_default_zero (data : List OpenQueryData)
    (dev : Device) (k : String) :
    (k ∈ ["generationPower", "pvPower", "gridConsumptionPower", "feedinPower",
        "loadsPower", "batChargePower", "batDischargePower", "SoC"] →
      get_data_value data k = PyVal.none →
      asNum (pyOrZero (get_data_value data k)) = some 0)
    ∧ (get_data_value data k = PyVal.num 0 →
      asNum (pyOrZero (get_data_value data k)) = some 0)
    ∧ (∀ lines, get_data_value data "gridConsumptionPower" = PyVal.none →
        get_data_value data "feedinPower" = PyVal.none →
        default_summary dev data 2 = some lines →
        lines.get? 4 = some "Grid: 0 kW export") := by
  refine ⟨?_, ?_, ?_⟩
  · intro _ hv
    rw [hv]
    exact asNum_pyOrZero_none
  · intro hv
    rw [hv]
    exact asNum_pyOrZero_num 0
  · intro lines hgc hfi hsum
    obtain ⟨s0, p0, gc, fi, home, bc, bd, soc, e1, e2, e3, e4, e5, e6, e7,
      e8, hl⟩ := default_summary_some_inv dev data 2 lines hsum
    rw [hgc, asNum_pyOrZero_none] at e3
    rw [hfi, asNum_pyOrZero_none] at e4
    obtain rfl := Option.some.inj e3
    obtain rfl := Option.some.inj e4
    rw [hl]
    rfl

/-- C10 witness: with an empty data list every lookup is substituted
with `0` and the grid line is `Grid: 0 kW export`. -/
theorem missing_variables_default_zero_witness :
    asNum (pyOrZero (get_data_value [] "SoC")) = some 0
    ∧ (["Device: ", "generationPower: 0 kW", "pvPower: 0 kW",
        "loadsPower: 0 kW", "Grid: 0 kW export"] : List String).get? 4
      = some "Grid: 0 kW export" :=
  ⟨(missing_variables_default_zero [] ⟨"", "", "", "", "", false, false⟩
      "SoC").1 (by decide) rfl,
   (missing_variables_default_zero [] ⟨"", "", "", "", "", false, false⟩
      "SoC").2.2
    ["Device: ", "generationPower: 0 kW", "pvPower: 0 kW",
     "loadsPower: 0 kW", "Grid: 0 kW export"] rfl rfl rfl⟩

end FoxESS
